import Mathlib

/-!
Verification of the `models.py` schema fragment: two ORM-declared entities,
`User` and `Chat`, with column constraints (primary key, unique, index,
foreign key) and a bidirectional `User.chats ↔ Chat.owner` relationship.

The embedding has two layers:
* a metadata layer (`ColumnDecl`, `usersTable`, `chatsTable`) transcribing the
  column declarations themselves, including ORM defaults (a column is nullable
  unless it is a primary key; a primary key is implicitly unique);
* a state layer (`UserRow`, `ChatRow`, `DBState`, `dbValid`) giving the set of
  database states the declared constraints admit, with SQL semantics for
  constraints over NULL: a UNIQUE column admits several NULLs, and a foreign
  key constrains only non-NULL values.
-/

namespace LlmChat

/-- Column types used by the schema: `Integer`, `String` (no length given in
the source), and `Text`. -/
inductive ColType where
  | integer
  | string
  | text
deriving DecidableEq, Repr

/-- A `ForeignKey(...)` declaration: the referenced column, and the on-delete
policy if one is declared (`ondelete=` keyword; absent in the source). -/
structure ForeignKeyDecl where
  references : String
  ondelete : Option String
deriving DecidableEq, Repr

/-- A `Column(...)` declaration as written in the source: name, type, and the
explicitly passed flags (`primary_key=`, `unique=`, `index=`, `ForeignKey`). -/
structure ColumnDecl where
  name : String
  type : ColType
  primary_key : Bool := false
  unique : Bool := false
  index : Bool := false
  foreign_key : Option ForeignKeyDecl := none
deriving DecidableEq, Repr

/-- ORM default: a column is nullable unless it is a primary key and no
explicit `nullable=` argument is passed (none is passed in the source). -/
def ColumnDecl.nullable (c : ColumnDecl) : Bool :=
  !c.primary_key

/-- A column is unique when declared `unique=True` or when it is a primary
key (a primary key is implicitly unique). -/
def ColumnDecl.isUnique (c : ColumnDecl) : Bool :=
  c.unique || c.primary_key

/-- A column is indexed when declared `index=True` or when it is a primary
key (the primary key is indexed by the storage layer). -/
def ColumnDecl.isIndexed (c : ColumnDecl) : Bool :=
  c.index || c.primary_key

/-- A `relationship(...)` declaration: the target entity and the
`back_populates=` attribute name on the other side. -/
structure RelationshipDecl where
  target : String
  back_populates : String
deriving DecidableEq, Repr

/-- Column declaration `User.id = Column(Integer, primary_key=True, index=True)`. -/
def userIdCol : ColumnDecl :=
  { name := "id", type := .integer, primary_key := true, index := true }

/-- Column declaration `User.username = Column(String, unique=True, index=True)`. -/
def userUsernameCol : ColumnDecl :=
  { name := "username", type := .string, unique := true, index := true }

/-- Column declaration `User.email = Column(String, unique=True, index=True)`. -/
def userEmailCol : ColumnDecl :=
  { name := "email", type := .string, unique := true, index := true }

/-- Column declaration `User.hashed_password = Column(String)`. -/
def userPasswordCol : ColumnDecl :=
  { name := "hashed_password", type := .string }

/-- The columns of `User` (`__tablename__ = "users"`), in source order. -/
def usersTable : List ColumnDecl :=
  [userIdCol, userUsernameCol, userEmailCol, userPasswordCol]

/-- Column declaration `Chat.id = Column(Integer, primary_key=True, index=True)`. -/
def chatIdCol : ColumnDecl :=
  { name := "id", type := .integer, primary_key := true, index := true }

/-- Column declaration `Chat.owner_id = Column(Integer, ForeignKey("users.id"))`. -/
def chatOwnerIdCol : ColumnDecl :=
  { name := "owner_id", type := .integer,
    foreign_key := some { references := "users.id", ondelete := none } }

/-- Column declaration `Chat.message = Column(Text)`. -/
def chatMessageCol : ColumnDecl :=
  { name := "message", type := .text }

/-- The columns of `Chat` (`__tablename__ = "chats"`), in source order. -/
def chatsTable : List ColumnDecl :=
  [chatIdCol, chatOwnerIdCol, chatMessageCol]

/-- Relationship declaration `User.chats = relationship("Chat", back_populates="owner")`. -/
def userChatsRel : RelationshipDecl :=
  { target := "Chat", back_populates := "owner" }

/-- Relationship declaration `Chat.owner = relationship("User", back_populates="chats")`. -/
def chatOwnerRel : RelationshipDecl :=
  { target := "User", back_populates := "chats" }

/-- Look a column up by name in a table declaration. -/
def colNamed (t : List ColumnDecl) (n : String) : Option ColumnDecl :=
  t.find? (fun c => c.name == n)

/-- A stored `users` row: `id` is the non-null primary key; the remaining
columns are nullable, hence `Option`-valued. -/
structure UserRow where
  id : Int
  username : Option String
  email : Option String
  hashed_password : Option String
deriving DecidableEq, Repr

/-- A stored `chats` row: `id` is the non-null primary key; `owner_id` and
`message` are nullable, hence `Option`-valued. -/
structure ChatRow where
  id : Int
  owner_id : Option Int
  message : Option String
deriving DecidableEq, Repr

/-- A database state for the two declared tables. -/
structure DBState where
  users : List UserRow
  chats : List ChatRow
deriving DecidableEq, Repr

/-- SQL UNIQUE over nullable columns, for a pair of distinct rows: equal
`username` values force both to be NULL, and likewise for `email`.
(Several NULLs in a UNIQUE column are admitted.) -/
def userUniqOk (a b : UserRow) : Prop :=
  (a.username = b.username → a.username = none ∧ b.username = none) ∧
  (a.email = b.email → a.email = none ∧ b.email = none)

instance (a b : UserRow) : Decidable (userUniqOk a b) := by
  unfold userUniqOk; infer_instance

/-- The foreign key `ForeignKey("users.id")` on `chats.owner_id`: every
non-NULL `owner_id` value is the `id` of some `users` row. A NULL `owner_id`
satisfies the constraint. -/
def fkOk (us : List UserRow) (c : ChatRow) : Prop :=
  ∀ v ∈ c.owner_id.toList, ∃ u ∈ us, u.id = v

instance (us : List UserRow) (c : ChatRow) : Decidable (fkOk us c) := by
  unfold fkOk; infer_instance

/-- A database state satisfies the constraints declared in `models.py`:
primary keys are unique in each table, `username` and `email` are UNIQUE
across `users` (NULLs excepted), and `owner_id` respects the foreign key. -/
def dbValid (s : DBState) : Prop :=
  (s.users.map UserRow.id).Nodup ∧
  s.users.Pairwise userUniqOk ∧
  (s.chats.map ChatRow.id).Nodup ∧
  ∀ c ∈ s.chats, fkOk s.users c

instance (s : DBState) : Decidable (dbValid s) := by
  unfold dbValid; infer_instance

/-- Reading `Chat.owner`: resolve the `owner_id` foreign key against the `users`
rows of the state (the relationship is a query-time lookup). -/
def ChatRow.ownerIn (s : DBState) (c : ChatRow) : Option UserRow :=
  match c.owner_id with
  | none => none
  | some v => s.users.find? (fun u => u.id == v)

/-- Reading `User.chats`: the `chats` rows of the state whose `owner_id` is this
user's `id`. -/
def UserRow.chatsIn (s : DBState) (u : UserRow) : List ChatRow :=
  s.chats.filter (fun c => c.owner_id == some u.id)

/-- A chat references a user in a state when some `users` row's `id` equals
its `owner_id`. -/
def referencesUser (s : DBState) (c : ChatRow) : Prop :=
  ∃ u ∈ s.users, c.owner_id = some u.id

instance (s : DBState) (c : ChatRow) : Decidable (referencesUser s c) := by
  unfold referencesUser; infer_instance

/-- The spec's example user: `User{username:"alice", email:"a@x.com",
hashed_password:"h1"}` with id 1. -/
def alice : UserRow :=
  { id := 1, username := some "alice", email := some "a@x.com",
    hashed_password := some "h1" }

/-- The spec's example chat: `Chat{owner_id:1, message:"hello"}` with id 1. -/
def helloChat : ChatRow :=
  { id := 1, owner_id := some 1, message := some "hello" }

/-- The spec's example state: alice owning the "hello" chat. -/
def aliceState : DBState :=
  { users := [alice], chats := [helloChat] }

/-- A chat row with NULL `owner_id` (and NULL `message`). -/
def orphanChat : ChatRow :=
  { id := 2, owner_id := none, message := none }

/-- A state that the declared constraints admit, holding one user and one
chat whose `owner_id` is NULL. -/
def orphanState : DBState :=
  { users := [alice], chats := [orphanChat] }

/-- A second user, distinct from `alice` in every unique column. -/
def bob : UserRow :=
  { id := 2, username := some "bob", email := some "b@x.com",
    hashed_password := some "h2" }

/-- A state with two fully populated users and no chats. -/
def twoUsersState : DBState :=
  { users := [alice, bob], chats := [] }

/-- A user row whose `username`, `email` and `hashed_password` are all NULL. -/
def nullUser1 : UserRow :=
  { id := 1, username := none, email := none, hashed_password := none }

/-- A second all-NULL user row, with a different primary key. -/
def nullUser2 : UserRow :=
  { id := 2, username := none, email := none, hashed_password := none }

/-- A state the declared constraints admit, holding two users whose
`username` and `email` are both NULL. -/
def nullUsersState : DBState :=
  { users := [nullUser1, nullUser2], chats := [] }

/-- The users owning a given chat: the `users` rows whose `id` matches the
chat's `owner_id`. -/
def ownersOf (s : DBState) (c : ChatRow) : List UserRow :=
  s.users.filter (fun u => some u.id == c.owner_id)

/-- The relation `userUniqOk` is symmetric: it compares the two rows' nullable unique
columns for equality, which is a symmetric condition. -/
theorem userUniqOk_symm : Symmetric userUniqOk := by
  intro a b h
  refine ⟨fun he => ?_, fun he => ?_⟩
  · obtain ⟨h1, h2⟩ := h.1 he.symm
    exact ⟨h2, h1⟩
  · obtain ⟨h1, h2⟩ := h.2 he.symm
    exact ⟨h2, h1⟩

/-- Claim C5: the `User` entity declares exactly the four columns `id`
(integer, primary key, unique, indexed), `username` (string, unique,
indexed), `email` (string, unique, indexed) and `hashed_password` (string,
neither unique nor indexed), plus the `chats` relationship to `Chat` with
back-reference `owner`. -/
theorem user_entity_exact_columns :
    usersTable.map ColumnDecl.name = ["id", "username", "email", "hashed_password"] ∧
    userIdCol.type = ColType.integer ∧ userIdCol.primary_key = true ∧
    userIdCol.isUnique = true ∧ userIdCol.isIndexed = true ∧
    userUsernameCol.type = ColType.string ∧ userUsernameCol.isUnique = true ∧
    userUsernameCol.isIndexed = true ∧
    userEmailCol.type = ColType.string ∧ userEmailCol.isUnique = true ∧
    userEmailCol.isIndexed = true ∧
    userPasswordCol.type = ColType.string ∧ userPasswordCol.isUnique = false ∧
    userPasswordCol.isIndexed = false ∧
    userChatsRel = { target := "Chat", back_populates := "owner" } := by
  decide

/-- Claim C6: the `Chat` entity declares exactly the three columns `id`
(integer, primary key, unique, indexed), `owner_id` (integer, foreign key
referencing `users.id`) and `message` (text), plus the `owner` relationship
to `User` with back-reference `chats`. -/
theorem chat_entity_exact_columns :
    chatsTable.map ColumnDecl.name = ["id", "owner_id", "message"] ∧
    chatIdCol.type = ColType.integer ∧ chatIdCol.primary_key = true ∧
    chatIdCol.isUnique = true ∧ chatIdCol.isIndexed = true ∧
    chatOwnerIdCol.type = ColType.integer ∧
    chatOwnerIdCol.foreign_key = some { references := "users.id", ondelete := none } ∧
    chatMessageCol.type = ColType.text ∧
    chatOwnerRel = { target := "User", back_populates := "chats" } := by
  decide

/-- Claim C7: `Chat.message` is a `Text` column with no length constraint:
for every string `s`, a state holding a chat whose message is `s` satisfies
all declared constraints. -/
theorem message_accepts_any_string (s : String) :
    chatMessageCol.type = ColType.text ∧
    ∃ st : DBState, dbValid st ∧ ∃ c ∈ st.chats, c.message = some s := by
  refine ⟨rfl, { users := [], chats := [⟨1, none, some s⟩] }, ?_, ⟨1, none, some s⟩, by simp, rfl⟩
  refine ⟨by simp, by simp, by simp, ?_⟩
  intro c hc
  simp only [List.mem_singleton] at hc
  subst hc
  intro v hv
  simp [Option.toList] at hv

/-- Witness for C7 at the concrete string "hello". -/
theorem message_accepts_any_string_witness :
    chatMessageCol.type = ColType.text ∧
    ∃ st : DBState, dbValid st ∧ ∃ c ∈ st.chats, c.message = some "hello" :=
  message_accepts_any_string "hello"

/-- Claim C8: the `owner_id` foreign key declares no on-delete policy: the
`ForeignKey("users.id")` declaration carries `ondelete = none`, neither
cascade nor restrict. -/
theorem chat_fk_no_ondelete_policy :
    colNamed chatsTable "owner_id" = some chatOwnerIdCol ∧
    chatOwnerIdCol.foreign_key = some { references := "users.id", ondelete := none } ∧
    chatOwnerIdCol.foreign_key.map ForeignKeyDecl.ondelete = some none := by
  decide

/-- Claim C9: `owner_id` declares no not-null constraint, so a valid state
may hold a chat whose `owner_id` is NULL and which references no user. -/
theorem owner_id_nullable_admitted :
    chatOwnerIdCol.nullable = true ∧
    dbValid orphanState ∧
    orphanChat ∈ orphanState.chats ∧
    orphanChat.owner_id = none ∧
    ¬ referencesUser orphanState orphanChat := by
  decide

/-- Claim C10: `username`, `email` and `hashed_password` declare no not-null
constraint, and the UNIQUE constraints admit several users with NULL values:
a valid state may hold two distinct all-NULL users. -/
theorem user_nullable_fields_admitted :
    userUsernameCol.nullable = true ∧ userEmailCol.nullable = true ∧
    userPasswordCol.nullable = true ∧
    dbValid nullUsersState ∧
    nullUser1 ∈ nullUsersState.users ∧ nullUser2 ∈ nullUsersState.users ∧
    nullUser1 ≠ nullUser2 ∧
    nullUser1.username = none ∧ nullUser1.email = none ∧
    nullUser1.hashed_password = none ∧
    nullUser2.username = none ∧ nullUser2.email = none ∧
    nullUser2.hashed_password = none := by
  decide

/-- Counterexample to C1 as stated: a valid state holds a chat (NULL
`owner_id`) that references no user. -/
theorem chat_without_referenced_user :
    dbValid orphanState ∧ orphanChat ∈ orphanState.chats ∧
    ¬ referencesUser orphanState orphanChat := by
  decide

/-- Claim C1 (amended): in a valid state, every chat whose `owner_id` is
non-NULL references an existing user: some `users` row's `id` equals it. -/
theorem nonnull_owner_id_references_user (s : DBState) (h : dbValid s) :
    ∀ c ∈ s.chats, ∀ v, c.owner_id = some v → ∃ u ∈ s.users, u.id = v := by
  intro c hc v hv
  exact h.2.2.2 c hc v (by simp [hv])

/-- Witness for C1 (amended) at the spec's example state. -/
theorem nonnull_owner_id_references_user_witness :
    dbValid aliceState ∧ ∃ u ∈ aliceState.users, u.id = 1 :=
  ⟨by decide,
   nonnull_owner_id_references_user aliceState (by decide) helloChat (by decide) 1 rfl⟩

/-- Counterexample to C2 as stated: a valid state holds two distinct users
whose `username` values are equal (both NULL) and whose `email` values are
equal (both NULL). -/
theorem duplicate_null_usernames_admitted :
    dbValid nullUsersState ∧
    nullUser1 ∈ nullUsersState.users ∧ nullUser2 ∈ nullUsersState.users ∧
    nullUser1 ≠ nullUser2 ∧
    nullUser1.username = nullUser2.username ∧
    nullUser1.email = nullUser2.email := by
  decide

/-- Claim C2 (amended): in a valid state, two distinct users never share a
non-NULL `username`, and never share a non-NULL `email`. -/
theorem nonnull_username_email_unique (s : DBState) (h : dbValid s) :
    ∀ a ∈ s.users, ∀ b ∈ s.users, a ≠ b →
      (∀ v, a.username = some v → b.username ≠ some v) ∧
      (∀ v, a.email = some v → b.email ≠ some v) := by
  intro a ha b hb hne
  have huq : userUniqOk a b := h.2.1.forall userUniqOk_symm ha hb hne
  constructor
  · intro v hav hbv
    have he : a.username = b.username := by rw [hav, hbv]
    have hn := (huq.1 he).1
    rw [hav] at hn
    exact Option.noConfusion hn
  · intro v hav hbv
    have he : a.email = b.email := by rw [hav, hbv]
    have hn := (huq.2 he).1
    rw [hav] at hn
    exact Option.noConfusion hn

/-- Witness for C2 (amended) at a state with two fully populated users. -/
theorem nonnull_username_email_unique_witness :
    dbValid twoUsersState ∧
    ((∀ v, alice.username = some v → bob.username ≠ some v) ∧
     (∀ v, alice.email = some v → bob.email ≠ some v)) :=
  ⟨by decide,
   nonnull_username_email_unique twoUsersState (by decide) alice (by decide)
     bob (by decide) (by decide)⟩

/-- Counterexample to C3 as stated: a valid state holds a chat owned by no
user at all (its `owner_id` is NULL), so ownership can be zero-to-one. -/
theorem chat_with_zero_owners :
    dbValid orphanState ∧ orphanChat ∈ orphanState.chats ∧
    ownersOf orphanState orphanChat = [] := by
  decide

/-- Claim C3 (amended): in a valid state, every chat whose `owner_id` is
non-NULL is owned by exactly one user. -/
theorem nonnull_owner_exactly_one (s : DBState) (h : dbValid s) :
    ∀ c ∈ s.chats, ∀ v, c.owner_id = some v →
      ∃! u, u ∈ s.users ∧ u.id = v := by
  intro c hc v hv
  obtain ⟨u, hu, huv⟩ := h.2.2.2 c hc v (by simp [hv])
  refine ⟨u, ⟨hu, huv⟩, ?_⟩
  rintro u' ⟨hu', hu'v⟩
  exact List.inj_on_of_nodup_map h.1 hu' hu (by rw [hu'v, huv])

/-- Witness for C3 (amended) at the spec's example state. -/
theorem nonnull_owner_exactly_one_witness :
    dbValid aliceState ∧ ∃! u, u ∈ aliceState.users ∧ u.id = 1 :=
  ⟨by decide,
   nonnull_owner_exactly_one aliceState (by decide) helloChat (by decide) 1 rfl⟩

/-- Claim C4: the back-reference round-trips. In a valid state, a chat whose
resolved `owner` is `u` appears in `u`'s `chats` collection, and every chat
in a user's `chats` collection is a stored chat whose resolved `owner` is
that user. -/
theorem owner_chats_roundtrip (s : DBState) (h : dbValid s) :
    (∀ c ∈ s.chats, ∀ u, ChatRow.ownerIn s c = some u → c ∈ UserRow.chatsIn s u) ∧
    (∀ u ∈ s.users, ∀ c ∈ UserRow.chatsIn s u,
      c ∈ s.chats ∧ ChatRow.ownerIn s c = some u) := by
  constructor
  · intro c hc u ho
    unfold ChatRow.ownerIn at ho
    cases hv : c.owner_id with
    | none => rw [hv] at ho; exact Option.noConfusion ho
    | some v =>
      rw [hv] at ho
      have ho2 : s.users.find? (fun x => x.id == v) = some u := ho
      have hpu := List.find?_some ho2
      have huid : u.id = v := by simpa using hpu
      unfold UserRow.chatsIn
      rw [List.mem_filter]
      refine ⟨hc, ?_⟩
      rw [hv, huid]
      simp
  · intro u hu c hcm
    unfold UserRow.chatsIn at hcm
    rw [List.mem_filter] at hcm
    obtain ⟨hc, hbeq⟩ := hcm
    have hov : c.owner_id = some u.id := by simpa using hbeq
    refine ⟨hc, ?_⟩
    show ChatRow.ownerIn s c = some u
    unfold ChatRow.ownerIn
    rw [hov]
    show s.users.find? (fun x => x.id == u.id) = some u
    cases hfind : s.users.find? (fun x => x.id == u.id) with
    | none =>
      exfalso
      have hnp := List.find?_eq_none.mp hfind u hu
      simp at hnp
    | some u' =>
      have hmem : u' ∈ s.users := List.mem_of_find?_eq_some hfind
      have hpu := List.find?_some hfind
      have heq : u' = u := List.inj_on_of_nodup_map h.1 hmem hu (by simpa using hpu)
      rw [heq]

/-- Witness for C4 at the spec's example scenario: alice owns the "hello"
chat; reading `Chat.owner` yields alice and reading `User.chats` yields a
collection containing the chat. -/
theorem owner_chats_roundtrip_witness :
    dbValid aliceState ∧
    helloChat ∈ UserRow.chatsIn aliceState alice ∧
    ChatRow.ownerIn aliceState helloChat = some alice :=
  ⟨by decide,
   (owner_chats_roundtrip aliceState (by decide)).1 helloChat (by decide) alice (by decide),
   ((owner_chats_roundtrip aliceState (by decide)).2 alice (by decide) helloChat (by decide)).2⟩

end LlmChat
